/-
Verification of the iona-ha core against its natural-language specification.

Shallow embedding of the relevant program parts:
  * `src/app/vision.py`     — sliding-window price optimizer
    (`_finde_guenstigste_startzeit`, `_finde_aktuellen_preis`, the result
    post-processing in `run`).
  * `src/app/get_lan_data.py` / `src/app/get_web_data.py` — meter record
    update logic (`run`, `_parse_power`).
  * `src/data_manager.py`   — freshness check (`_is_data_fresh`) and the
    optimizer scheduling tick (`_task_vision`).
  * `src/env_utils.py`      — configuration getters/setters with clamping.
  * `src/const.py`          — freshness budget constants.

Timestamps are modelled as integers (minutes since an arbitrary epoch);
Python's `datetime` ordering and `timedelta` arithmetic map to integer
ordering and addition.  Python floats are modelled as rationals.
-/
import Mathlib

namespace IonaHa

/-! ## Constants (src/const.py and src/app/vision.py) -/

/-- Freshness budget for the spot-price fetch, minutes (`FRESHNESS_SPOT_PRICES`). -/
def FRESHNESS_SPOT_PRICES : ℕ := 25

/-- Freshness budget for the tariff fetch, minutes (`FRESHNESS_TARIFF`). -/
def FRESHNESS_TARIFF : ℕ := 1380

/-- Freshness budget for the vision (optimizer) result, minutes (`FRESHNESS_VISION`). -/
def FRESHNESS_VISION : ℕ := 4

/-- Freshness budget for meter data, minutes (`FRESHNESS_METER`). -/
def FRESHNESS_METER : ℕ := 1

/-- Spot price sampling interval in minutes (`INTERVALL_MIN` in vision.py). -/
def INTERVALL_MIN : ℕ := 15

/-- Samples per hour (`EINTRAEGE_PRO_STUNDE = 60 // INTERVALL_MIN`). -/
def EINTRAEGE_PRO_STUNDE : ℕ := 60 / INTERVALL_MIN

/-- First night hour (`NACHT_START` in vision.py). -/
def NACHT_START : ℤ := 20

/-- First morning hour (`NACHT_ENDE` in vision.py). -/
def NACHT_ENDE : ℤ := 7

/-! ## Price samples (vision.py `_lade_spotpreise` output entries) -/

/-- One price sample: timestamp in minutes, price in EUR/kWh (a rational,
modelling the Python float). -/
structure Eintrag where
  timestamp : ℤ
  price : ℚ
deriving DecidableEq, Repr

/-- Hour-of-day of a minute-resolution timestamp (`dt.hour`). -/
def stunde (t : ℤ) : ℤ := (t % 1440) / 60

/-- Embedding of `_ist_nachtzeit`: `dt.hour >= NACHT_START or dt.hour < NACHT_ENDE`. -/
def istNachtzeit (t : ℤ) : Bool :=
  decide (NACHT_START ≤ stunde t) || decide (stunde t < NACHT_ENDE)

/-! ## The optimizer `_finde_guenstigste_startzeit` (vision.py lines 127-176) -/

/-- The `future` list: samples with `timestamp >= now`, additionally
night-filtered when `nur_nacht` is set (vision.py lines 144-146). -/
def zukunft (preise : List Eintrag) (nurNacht : Bool) (now : ℤ) : List Eintrag :=
  let f := preise.filter (fun e => decide (now ≤ e.timestamp))
  if nurNacht then f.filter (fun e => istNachtzeit e.timestamp) else f

/-- The window slice `window = future[i : i + anzahl]`. -/
def fenster (future : List Eintrag) (anzahl i : ℕ) : List Eintrag :=
  (future.drop i).take anzahl

/-- The consecutiveness check (vision.py lines 162-165): every adjacent pair
of samples in the window is at most 20 minutes apart. -/
def consecutiveOk : List Eintrag → Bool
  | [] => true
  | [_] => true
  | a :: b :: rest =>
      decide (b.timestamp - a.timestamp ≤ 20) && consecutiveOk (b :: rest)

/-- The horizon check on the window start (vision.py line 158): the scan
skips the window when `window[0].timestamp >= grenze`, i.e. it proceeds
exactly when the first sample is strictly before the horizon bound. -/
def startOk (grenze : ℤ) : List Eintrag → Bool
  | [] => false
  | a :: _ => decide (a.timestamp < grenze)

/-- The window average `avg = sum(e.price for e in window) / anzahl` (vision.py line 169). -/
def durchschnitt (w : List Eintrag) (anzahl : ℕ) : ℚ :=
  (w.map Eintrag.price).sum / (anzahl : ℚ)

/-- A window index passes the scan's two filters: start within the horizon
and consecutive samples. -/
def gueltig (future : List Eintrag) (anzahl : ℕ) (grenze : ℤ) (i : ℕ) : Bool :=
  startOk grenze (fenster future anzahl i) && consecutiveOk (fenster future anzahl i)

/-- One iteration of the scan loop (vision.py lines 154-172): the running
minimum is updated only on a strict `<` comparison, so the first window
attaining the minimum is kept.  `none` models the initial
`min_avg = inf, min_start = None` state. -/
def schritt (future : List Eintrag) (anzahl : ℕ) (grenze : ℤ)
    (best : Option (ℕ × ℚ)) (i : ℕ) : Option (ℕ × ℚ) :=
  if gueltig future anzahl grenze i then
    let avg := durchschnitt (fenster future anzahl i) anzahl
    match best with
    | none => some (i, avg)
    | some (j, m) => if avg < m then some (i, avg) else some (j, m)
  else best

/-- The scan over the first `k` window positions. -/
def sucheBis (future : List Eintrag) (anzahl : ℕ) (grenze : ℤ) (k : ℕ) :
    Option (ℕ × ℚ) :=
  (List.range k).foldl (schritt future anzahl grenze) none

/-- The full scan, `for i in range(len(future) - anzahl + 1)`. -/
def suche (future : List Eintrag) (anzahl : ℕ) (grenze : ℤ) : Option (ℕ × ℚ) :=
  sucheBis future anzahl grenze (future.length - anzahl + 1)

/-- Embedding of `_finde_guenstigste_startzeit`, returning the winning window index and
its average price (vision.py lines 127-176).  Returns `none` exactly when
the Python function returns `(None, None)`. -/
def findeGuenstigsteStartzeitIdx (preise : List Eintrag) (stunden : ℕ)
    (nurNacht : Bool) (maxVorausschauH : ℕ) (now : ℤ) : Option (ℕ × ℚ) :=
  let anzahl := stunden * EINTRAEGE_PRO_STUNDE
  let future := zukunft preise nurNacht now
  if future.length < anzahl then none
  else suche future anzahl (now + 60 * (maxVorausschauH : ℤ))

/-- Embedding of `_finde_guenstigste_startzeit` at the level of its Python return value:
the winning window's first sample (`min_start = window[0]`) and its average
price. -/
def findeGuenstigsteStartzeit (preise : List Eintrag) (stunden : ℕ)
    (nurNacht : Bool) (maxVorausschauH : ℕ) (now : ℤ) : Option (Eintrag × ℚ) :=
  match findeGuenstigsteStartzeitIdx preise stunden nurNacht maxVorausschauH now with
  | none => none
  | some (i, m) =>
      match (zukunft preise nurNacht now)[i]? with
      | none => none
      | some e => some (e, m)

/-- Embedding of Python `round(q, 5)`, modelled as rounding to the nearest multiple of
`1/100000` (ties as in Mathlib's `round`; no claim depends on tie behaviour). -/
def round5 (q : ℚ) : ℚ := ((round (q * 100000) : ℤ) : ℚ) / 100000

/-- Embedding of `_finde_aktuellen_preis` (vision.py lines 109-120): first sample whose
15-minute interval contains `now`, else the first future sample, else `None`. -/
def findeAktuellenPreis (preise : List Eintrag) (now : ℤ) : Option ℚ :=
  match preise.find? (fun e =>
      decide (e.timestamp ≤ now) && decide (now < e.timestamp + INTERVALL_MIN)) with
  | some e => some (round5 e.price)
  | none =>
      match preise.find? (fun e => decide (now ≤ e.timestamp)) with
      | some e => some (round5 e.price)
      | none => none

/-- The result-record post-processing in vision.py `run` (lines 195-196):
`guenstigste_zeit = start["timestamp_str"] if start else None` and
`guenstigste_summe = round(avg, 5) if avg and avg != inf else None`.
A rational average is never `inf`; the truthiness test `if avg` discards the
value exactly when `avg == 0`. -/
def visionErgebnis (r : Option (Eintrag × ℚ)) : Option ℤ × Option ℚ :=
  match r with
  | none => (none, none)
  | some (e, avg) =>
      (some e.timestamp, if avg = 0 then none else some (round5 avg))

/-! ## Meter record updates (get_lan_data.py and get_web_data.py) -/

/-- Embedding of `_parse_power` (get_lan_data.py lines 60-66): `None`/`0` → `None`;
values above `9_000_000` are corrected by subtracting `16_777_216` (2^24);
other values pass through. -/
def parsePower (rawValue : Option ℤ) : Option ℤ :=
  match rawValue with
  | none => none
  | some r =>
      if r = 0 then none
      else if 9000000 < r then some (r - 16777216) else some r

/-- Parsing of the cumulative kWh fields (get_lan_data.py lines 133, 148):
`raw / 1000 if raw not in (None, 0) else None`. -/
def parseKwh (raw : Option ℚ) : Option ℚ :=
  match raw with
  | none => none
  | some r => if r = 0 then none else some (r / 1000)

/-- The stored meter record (`device_id == "Stromzaehler"` entry of
meter_db.json).  Per-field `observed_at` timestamps are integers, modelling
the chronologically ordered ISO timestamp strings. -/
structure Zaehler where
  gesamtverbrauch : Option ℚ := none
  gesamtverbrauchTs : Option ℤ := none
  gesamteinspeisung : Option ℚ := none
  gesamteinspeisungTs : Option ℤ := none
  momentanleistung : Option ℚ := none
  momentanleistungTs : Option ℤ := none
  source : String := ""
deriving DecidableEq, Repr

/-- The per-field freshness test `not old_ts or new_ts > old_ts`
(get_lan_data.py lines 167, 175, 183; get_web_data.py lines 82, 88). -/
def vergleicheTs (oldTs : Option ℤ) (neu : ℤ) : Bool :=
  match oldTs with
  | none => true
  | some o => decide (o < neu)

/-- The export zero-regression guard (get_lan_data.py line 176):
`old_val and old_val > 0 and gesamteinspeisung == 0` — blocking exactly when
the stored export is a truthy (nonzero) positive value and the incoming
value is exactly zero. -/
def blockNullEinspeisung (oldVal : Option ℚ) (neu : ℚ) : Bool :=
  match oldVal with
  | none => false
  | some x => decide (x ≠ 0) && decide (0 < x) && decide (neu = 0)

/-- The cumulative-import update step (get_lan_data.py lines 165-170): when
a parsed reading is present and its timestamp passes the per-field test, the
field and its timestamp are overwritten and the `updated` flag is set. -/
def lanSchrittVerbrauch (s : Zaehler × Bool) (verbrauch : Option (ℚ × ℤ)) :
    Zaehler × Bool :=
  match verbrauch with
  | none => s
  | some (v, ts) =>
      if vergleicheTs s.1.gesamtverbrauchTs ts then
        ({ s.1 with gesamtverbrauch := some v, gesamtverbrauchTs := some ts }, true)
      else s

/-- The cumulative-export update step (get_lan_data.py lines 172-179): like
the import step, but additionally guarded by the zero-regression check. -/
def lanSchrittEinspeisung (s : Zaehler × Bool) (einspeisung : Option (ℚ × ℤ)) :
    Zaehler × Bool :=
  match einspeisung with
  | none => s
  | some (v, ts) =>
      if vergleicheTs s.1.gesamteinspeisungTs ts then
        if blockNullEinspeisung s.1.gesamteinspeisung v then s
        else ({ s.1 with gesamteinspeisung := some v,
                         gesamteinspeisungTs := some ts }, true)
      else s

/-- The instantaneous-power update step (get_lan_data.py lines 181-186). -/
def lanSchrittLeistung (s : Zaehler × Bool) (leistung : Option (ℚ × ℤ)) :
    Zaehler × Bool :=
  match leistung with
  | none => s
  | some (v, ts) =>
      if vergleicheTs s.1.momentanleistungTs ts then
        ({ s.1 with momentanleistung := some v, momentanleistungTs := some ts }, true)
      else s

/-- The existing-record branch of get_lan_data.py `run` (lines 161-191): the
three field updates run in sequence on the entry, threading the `updated`
flag; `source` becomes `"LAN"` when anything updated, otherwise the record
is left as it was.  An incoming reading per field is an optional
(value, observed_at) pair — absent fields (parsed to `None`) skip their
update entirely. -/
def lanRunUpdate (entry : Zaehler) (verbrauch einspeisung leistung : Option (ℚ × ℤ)) :
    Zaehler :=
  let s := lanSchrittLeistung
    (lanSchrittEinspeisung (lanSchrittVerbrauch (entry, false) verbrauch) einspeisung)
    leistung
  if s.2 then { s.1 with source := "LAN" } else entry

/-- The cumulative-import update step of get_web_data.py `run` (lines 81-85). -/
def webSchrittVerbrauch (s : Zaehler × Bool) (v : ℚ) (ts : ℤ) : Zaehler × Bool :=
  if vergleicheTs s.1.gesamtverbrauchTs ts then
    ({ s.1 with gesamtverbrauch := some v, gesamtverbrauchTs := some ts }, true)
  else s

/-- The instantaneous-power update step of get_web_data.py `run`
(lines 87-91). -/
def webSchrittLeistung (s : Zaehler × Bool) (v : ℚ) (ts : ℤ) : Zaehler × Bool :=
  if vergleicheTs s.1.momentanleistungTs ts then
    ({ s.1 with momentanleistung := some v, momentanleistungTs := some ts }, true)
  else s

/-- The existing-record branch of get_web_data.py `run` (lines 77-96):
cumulative import and instantaneous power share one incoming timestamp,
each field guarded by its own stored per-field timestamp; the export field
is never touched; `source` becomes `"WEB"` when anything updated. -/
def webRunUpdate (entry : Zaehler) (verbrauch leistung : ℚ) (ts : ℤ) : Zaehler :=
  let s := webSchrittLeistung (webSchrittVerbrauch (entry, false) verbrauch ts) leistung ts
  if s.2 then { s.1 with source := "WEB" } else entry

/-! ## Freshness policy and the vision scheduling tick (data_manager.py) -/

/-- Embedding of `IonaDataManager._is_data_fresh` (data_manager.py lines 110-121): the
record file must exist and its age in seconds must be strictly below the
budget in minutes times 60. -/
def isDataFresh (fileExists : Bool) (ageSeconds : ℚ) (maxAgeMinutes : ℕ) : Bool :=
  fileExists && decide (ageSeconds < (maxAgeMinutes : ℚ) * 60)

/-- The spec's `shouldFetch`: the negation of `_is_data_fresh`. -/
def shouldFetch (fileExists : Bool) (ageSeconds : ℚ) (maxAgeMinutes : ℕ) : Bool :=
  !isDataFresh fileExists ageSeconds maxAgeMinutes

/-- The execute/no-op decision of `IonaDataManager._task_vision`
(data_manager.py lines 295-311): the tick runs `vision.run` exactly when
`is_vision_enabled()` holds and `spotpreise_brutto_db.json` exists — no
other condition is consulted. -/
def taskVisionRuns (visionEnabled bruttoVorhanden : Bool) : Bool :=
  visionEnabled && bruttoVorhanden

/-! ## Configuration clamping (env_utils.py) -/

/-- The stored account.env configuration, restricted to the two keys the
claims concern.  `none` models an absent (or unparsable) key. -/
structure AccountEnv where
  stundenBlock : Option ℤ := none
  vorausschauStunden : Option ℤ := none
deriving DecidableEq, Repr

/-- Embedding of `get_stunden_block` (env_utils.py lines 159-167): clamp the stored value
(default 2) into `[1, max(1, maxDaten - 1)]`.  `maxDaten` is the result of
`get_max_datenlage_stunden()`, passed explicitly. -/
def getStundenBlock (env : AccountEnv) (maxDaten : ℤ) : ℤ :=
  max 1 (min (max 1 (maxDaten - 1)) (env.stundenBlock.getD 2))

/-- Embedding of `set_stunden_block` (env_utils.py lines 170-176): write the value
clamped into `[1, max(1, maxDaten - 1)]`; the stored horizon is not touched. -/
def setStundenBlock (env : AccountEnv) (maxDaten : ℤ) (value : ℤ) : AccountEnv :=
  { env with stundenBlock := some (max 1 (min (max 1 (maxDaten - 1)) value)) }

/-- Embedding of `get_vorausschau_stunden` (env_utils.py lines 179-188): clamp the stored
value (default 12) into `[get_stunden_block + 1, maxDaten]` (lower bound
wins when the interval is empty, since `max` is applied last). -/
def getVorausschauStunden (env : AccountEnv) (maxDaten : ℤ) : ℤ :=
  max (getStundenBlock env maxDaten + 1) (min maxDaten (env.vorausschauStunden.getD 12))

/-- Embedding of `set_vorausschau_stunden` (env_utils.py lines 191-198): write the value
clamped into `[get_stunden_block + 1, maxDaten]` (lower bound wins). -/
def setVorausschauStunden (env : AccountEnv) (maxDaten : ℤ) (value : ℤ) : AccountEnv :=
  { env with vorausschauStunden := some (max (getStundenBlock env maxDaten + 1) (min maxDaten value)) }

/-! ## Demo data used by witnesses -/

/-- Demonstration series: four samples at 15-minute spacing with gross
prices 30, 10, 10, 40 EUR/MWh, i.e. 0.030 … EUR/kWh. -/
def demoPreise : List Eintrag :=
  [⟨0, 30/1000⟩, ⟨15, 10/1000⟩, ⟨30, 10/1000⟩, ⟨45, 40/1000⟩]

/-- The average price of the cheapest one-hour window of `demoPreise`:
`(30 + 10 + 10 + 40) / 1000 / 4 = 9/400` EUR/kWh. -/
def m_demo : ℚ := 9/400

/-- Demonstration series with all prices exactly zero. -/
def nullPreise : List Eintrag := [⟨0, 0⟩, ⟨15, 0⟩, ⟨30, 0⟩, ⟨45, 0⟩]

/-- Demonstration series with only two samples — fewer than one window. -/
def kurzPreise : List Eintrag := [⟨0, 1/100⟩, ⟨15, 2/100⟩]

/-! ## Scan invariant for the optimizer -/

/-- Unrolling of the scan by one position. -/
theorem sucheBis_succ (future : List Eintrag) (anzahl : ℕ) (grenze : ℤ) (k : ℕ) :
    sucheBis future anzahl grenze (k + 1) =
      schritt future anzahl grenze (sucheBis future anzahl grenze k) k := by
  simp [sucheBis, List.range_succ]

/-- Loop invariant of the scan after visiting positions `0 … k-1`: the state
is `none` iff no visited position was valid; otherwise it holds the first
visited valid position of minimal average (strictly smaller than every
earlier valid position's average). -/
def InvScan (future : List Eintrag) (anzahl : ℕ) (grenze : ℤ) (k : ℕ) :
    Option (ℕ × ℚ) → Prop
  | none => ∀ j, j < k → gueltig future anzahl grenze j = false
  | some (i, m) =>
      i < k ∧ gueltig future anzahl grenze i = true ∧
      m = durchschnitt (fenster future anzahl i) anzahl ∧
      (∀ j, j < k → gueltig future anzahl grenze j = true →
        m ≤ durchschnitt (fenster future anzahl j) anzahl) ∧
      (∀ j, j < i → gueltig future anzahl grenze j = true →
        m < durchschnitt (fenster future anzahl j) anzahl)

/-- One scan step preserves the invariant. -/
theorem invScan_schritt {future : List Eintrag} {anzahl : ℕ} {grenze : ℤ} {k : ℕ}
    {best : Option (ℕ × ℚ)} (h : InvScan future anzahl grenze k best) :
    InvScan future anzahl grenze (k + 1) (schritt future anzahl grenze best k) := by
  unfold schritt
  by_cases hv : gueltig future anzahl grenze k = true
  · rw [if_pos hv]
    cases best with
    | none =>
      refine ⟨Nat.lt_succ_self k, hv, rfl, ?_, ?_⟩
      · intro j hj hgj
        rcases Nat.lt_succ_iff_lt_or_eq.mp hj with hlt | heq
        · exact absurd (h j hlt) (by simp [hgj])
        · subst heq; exact le_refl _
      · intro j hj hgj
        exact absurd (h j hj) (by simp [hgj])
    | some im =>
      obtain ⟨i, m⟩ := im
      obtain ⟨h1, h2, h3, h4, h5⟩ := h
      show InvScan future anzahl grenze (k + 1)
        (if durchschnitt (fenster future anzahl k) anzahl < m
          then some (k, durchschnitt (fenster future anzahl k) anzahl) else some (i, m))
      by_cases havg : durchschnitt (fenster future anzahl k) anzahl < m
      · rw [if_pos havg]
        refine ⟨Nat.lt_succ_self k, hv, rfl, ?_, ?_⟩
        · intro j hj hgj
          rcases Nat.lt_succ_iff_lt_or_eq.mp hj with hlt | heq
          · exact le_of_lt (lt_of_lt_of_le havg (h4 j hlt hgj))
          · subst heq; exact le_refl _
        · intro j hj hgj
          exact lt_of_lt_of_le havg (h4 j hj hgj)
      · rw [if_neg havg]
        push_neg at havg
        refine ⟨Nat.lt_succ_of_lt h1, h2, h3, ?_, h5⟩
        intro j hj hgj
        rcases Nat.lt_succ_iff_lt_or_eq.mp hj with hlt | heq
        · exact h4 j hlt hgj
        · subst heq; exact havg
  · rw [if_neg hv]
    cases best with
    | none =>
      intro j hj
      rcases Nat.lt_succ_iff_lt_or_eq.mp hj with hlt | heq
      · exact h j hlt
      · subst heq; simpa using hv
    | some im =>
      obtain ⟨i, m⟩ := im
      obtain ⟨h1, h2, h3, h4, h5⟩ := h
      refine ⟨Nat.lt_succ_of_lt h1, h2, h3, ?_, h5⟩
      intro j hj hgj
      rcases Nat.lt_succ_iff_lt_or_eq.mp hj with hlt | heq
      · exact h4 j hlt hgj
      · subst heq; exact absurd hgj hv

/-- The invariant holds after scanning any number of positions. -/
theorem invScan_sucheBis (future : List Eintrag) (anzahl : ℕ) (grenze : ℤ) :
    ∀ k, InvScan future anzahl grenze k (sucheBis future anzahl grenze k)
  | 0 => by
      have h0 : sucheBis future anzahl grenze 0 = none := by simp [sucheBis]
      rw [h0]
      intro j hj
      exact absurd hj (Nat.not_lt_zero j)
  | k + 1 => by
      rw [sucheBis_succ]
      exact invScan_schritt (invScan_sucheBis future anzahl grenze k)

/-- A successful optimizer run implies the guard passed and the scan
invariant holds of the returned pair. -/
theorem findeIdx_inv {preise : List Eintrag} {stunden maxH : ℕ} {nurNacht : Bool}
    {now : ℤ} {i : ℕ} {m : ℚ}
    (h : findeGuenstigsteStartzeitIdx preise stunden nurNacht maxH now = some (i, m)) :
    stunden * EINTRAEGE_PRO_STUNDE ≤ (zukunft preise nurNacht now).length ∧
    InvScan (zukunft preise nurNacht now) (stunden * EINTRAEGE_PRO_STUNDE)
      (now + 60 * (maxH : ℤ))
      ((zukunft preise nurNacht now).length - stunden * EINTRAEGE_PRO_STUNDE + 1)
      (some (i, m)) := by
  unfold findeGuenstigsteStartzeitIdx at h
  by_cases hlen : (zukunft preise nurNacht now).length < stunden * EINTRAEGE_PRO_STUNDE
  · rw [if_pos hlen] at h
    exact absurd h (by simp)
  · rw [if_neg hlen] at h
    refine ⟨Nat.le_of_not_lt hlen, ?_⟩
    have hinv := invScan_sucheBis (zukunft preise nurNacht now)
      (stunden * EINTRAEGE_PRO_STUNDE) (now + 60 * (maxH : ℤ))
      ((zukunft preise nurNacht now).length - stunden * EINTRAEGE_PRO_STUNDE + 1)
    unfold suche at h
    rw [h] at hinv
    exact hinv

/-- Filtering preserves chronological sortedness, so the `future` list of
the scan is sorted whenever the input series is. -/
theorem zukunft_sorted {preise : List Eintrag} (nurNacht : Bool) (now : ℤ)
    (h : List.Sorted (fun x y : Eintrag => x.timestamp ≤ y.timestamp) preise) :
    List.Sorted (fun x y : Eintrag => x.timestamp ≤ y.timestamp)
      (zukunft preise nurNacht now) := by
  unfold zukunft
  cases nurNacht
  · exact h.filter _
  · exact (h.filter _).filter _

/-- In a chronologically sorted list, positions are ordered by timestamp. -/
theorem sorted_ts_mono {l : List Eintrag}
    (h : List.Sorted (fun x y : Eintrag => x.timestamp ≤ y.timestamp) l)
    {i j : ℕ} (hij : i ≤ j) {e1 e2 : Eintrag}
    (h1 : l[i]? = some e1) (h2 : l[j]? = some e2) : e1.timestamp ≤ e2.timestamp := by
  rcases Nat.lt_or_eq_of_le hij with hlt | heq
  · obtain ⟨hi, hv1⟩ := List.getElem?_eq_some.mp h1
    obtain ⟨hj, hv2⟩ := List.getElem?_eq_some.mp h2
    have := List.pairwise_iff_get.mp h ⟨i, hi⟩ ⟨j, hj⟩ hlt
    simpa [List.get_eq_getElem, hv1, hv2] using this
  · subst heq
    rw [h1] at h2
    cases h2
    exact le_refl _

/-- Claim C1: for every chronologically sorted price series, window length
and horizon, if `_finde_guenstigste_startzeit` returns a window then that
window passes the validity checks, the returned average is that window's
arithmetic mean, the mean is less than or equal to the mean of every other
valid contiguous window of the same length whose start lies within the
horizon, and among all windows achieving the minimal mean the returned one
is the first-scanned, hence earliest-starting, one (the strict less-than
comparison keeps the first-found minimum). -/
theorem vision_optimiert_fenster
    (preise : List Eintrag) (stunden maxH : ℕ) (nurNacht : Bool) (now : ℤ)
    (hsort : List.Sorted (fun x y : Eintrag => x.timestamp ≤ y.timestamp) preise)
    (i : ℕ) (m : ℚ)
    (hres : findeGuenstigsteStartzeitIdx preise stunden nurNacht maxH now = some (i, m)) :
    gueltig (zukunft preise nurNacht now) (stunden * EINTRAEGE_PRO_STUNDE)
        (now + 60 * (maxH : ℤ)) i = true ∧
    m = durchschnitt (fenster (zukunft preise nurNacht now)
        (stunden * EINTRAEGE_PRO_STUNDE) i) (stunden * EINTRAEGE_PRO_STUNDE) ∧
    (∀ j, j + stunden * EINTRAEGE_PRO_STUNDE ≤ (zukunft preise nurNacht now).length →
      gueltig (zukunft preise nurNacht now) (stunden * EINTRAEGE_PRO_STUNDE)
        (now + 60 * (maxH : ℤ)) j = true →
      m ≤ durchschnitt (fenster (zukunft preise nurNacht now)
        (stunden * EINTRAEGE_PRO_STUNDE) j) (stunden * EINTRAEGE_PRO_STUNDE)) ∧
    (∀ j, j + stunden * EINTRAEGE_PRO_STUNDE ≤ (zukunft preise nurNacht now).length →
      gueltig (zukunft preise nurNacht now) (stunden * EINTRAEGE_PRO_STUNDE)
        (now + 60 * (maxH : ℤ)) j = true →
      durchschnitt (fenster (zukunft preise nurNacht now)
        (stunden * EINTRAEGE_PRO_STUNDE) j) (stunden * EINTRAEGE_PRO_STUNDE) = m →
      i ≤ j ∧ ∀ e1 e2, (zukunft preise nurNacht now)[i]? = some e1 →
        (zukunft preise nurNacht now)[j]? = some e2 →
        e1.timestamp ≤ e2.timestamp) := by
  obtain ⟨hlen, hinv⟩ := findeIdx_inv hres
  obtain ⟨h1, h2, h3, h4, h5⟩ := hinv
  refine ⟨h2, h3, ?_, ?_⟩
  · intro j hj hg
    exact h4 j (by omega) hg
  · intro j hj hg heq
    have hij : i ≤ j := by
      by_contra hcon
      push_neg at hcon
      exact absurd (heq ▸ h5 j hcon hg) (lt_irrefl m)
    exact ⟨hij, fun e1 e2 he1 he2 =>
      sorted_ts_mono (zukunft_sorted nurNacht now hsort) hij he1 he2⟩

/-- Witness for C1 at the demonstration series (prices 30, 10, 10, 40):
a one-hour window starting at the first sample is selected with average
`9/400` EUR/kWh, and that average is minimal among all valid windows. -/
theorem vision_optimiert_fenster_zeuge :
    m_demo = durchschnitt (fenster (zukunft demoPreise false 0)
        (1 * EINTRAEGE_PRO_STUNDE) 0) (1 * EINTRAEGE_PRO_STUNDE) ∧
    (∀ j, j + 1 * EINTRAEGE_PRO_STUNDE ≤ (zukunft demoPreise false 0).length →
      gueltig (zukunft demoPreise false 0) (1 * EINTRAEGE_PRO_STUNDE)
        (0 + 60 * (12 : ℤ)) j = true →
      m_demo ≤ durchschnitt (fenster (zukunft demoPreise false 0)
        (1 * EINTRAEGE_PRO_STUNDE) j) (1 * EINTRAEGE_PRO_STUNDE)) := by
  have h := vision_optimiert_fenster demoPreise 1 12 false 0 (by decide) 0 m_demo
    (by norm_num [findeGuenstigsteStartzeitIdx, demoPreise, zukunft, suche, sucheBis,
      schritt, gueltig, startOk, consecutiveOk, fenster, durchschnitt, m_demo,
      EINTRAEGE_PRO_STUNDE, INTERVALL_MIN, List.range_succ])
  exact ⟨h.2.1, h.2.2.1⟩

/-- The first sample of the `i`-th window is the `i`-th sample of `future`. -/
theorem fenster_kopf {future : List Eintrag} {anzahl i : ℕ} (ha : 0 < anzahl) :
    (fenster future anzahl i)[0]? = future[i]? := by
  unfold fenster
  rw [List.getElem?_take, if_pos ha, List.getElem?_drop]
  norm_num

/-- A window passing the horizon check has its first sample strictly before
the bound. -/
theorem startOk_kopf {grenze : ℤ} {w : List Eintrag} (h : startOk grenze w = true)
    {e : Eintrag} (he : w[0]? = some e) : e.timestamp < grenze := by
  cases w with
  | nil => simp at he
  | cons a t =>
    have ha : a = e := by simpa using he
    subst ha
    simpa [startOk] using h

/-- A window passing the consecutiveness check has all adjacent sample pairs
at most 20 minutes apart. -/
theorem consecutiveOk_paare :
    ∀ (w : List Eintrag), consecutiveOk w = true →
      ∀ (j : ℕ) (x y : Eintrag), w[j]? = some x → w[j + 1]? = some y →
        y.timestamp - x.timestamp ≤ 20 := by
  intro w
  induction w with
  | nil =>
    intro _ j x y hx _
    simp at hx
  | cons a t ih =>
    intro hc j x y hx hy
    cases t with
    | nil =>
      rcases j with _ | n <;> simp at hy
    | cons b r =>
      have hc' : (decide (b.timestamp - a.timestamp ≤ 20) && consecutiveOk (b :: r)) = true := hc
      rw [Bool.and_eq_true] at hc'
      cases j with
      | zero =>
        have hxa : a = x := by simpa using hx
        have hyb : b = y := by simpa using hy
        subst hxa
        subst hyb
        simpa using hc'.1
      | succ n =>
        have hx' : (b :: r)[n]? = some x := by simpa using hx
        have hy' : (b :: r)[n + 1]? = some y := by simpa using hy
        exact ih hc'.2 n x y hx' hy'

/-- Claim C2: every window the optimizer returns is valid — its first
sample's timestamp is strictly before `now + maxH` hours (the horizon bounds
only the window's start), and every pair of consecutive samples inside the
window is at most 20 minutes apart; a window violating either condition is
never selected. -/
theorem vision_fenster_bedingungen
    (preise : List Eintrag) (stunden maxH : ℕ) (nurNacht : Bool) (now : ℤ)
    (hstunden : 1 ≤ stunden) (e : Eintrag) (m : ℚ)
    (hres : findeGuenstigsteStartzeit preise stunden nurNacht maxH now = some (e, m)) :
    ∃ i, findeGuenstigsteStartzeitIdx preise stunden nurNacht maxH now = some (i, m) ∧
      (zukunft preise nurNacht now)[i]? = some e ∧
      e.timestamp < now + 60 * (maxH : ℤ) ∧
      (∀ (j : ℕ) (x y : Eintrag),
        (fenster (zukunft preise nurNacht now)
          (stunden * EINTRAEGE_PRO_STUNDE) i)[j]? = some x →
        (fenster (zukunft preise nurNacht now)
          (stunden * EINTRAEGE_PRO_STUNDE) i)[j + 1]? = some y →
        y.timestamp - x.timestamp ≤ 20) := by
  have hanz : 0 < stunden * EINTRAEGE_PRO_STUNDE := by
    have h4 : EINTRAEGE_PRO_STUNDE = 4 := rfl
    rw [h4]
    omega
  unfold findeGuenstigsteStartzeit at hres
  cases hIdx : findeGuenstigsteStartzeitIdx preise stunden nurNacht maxH now with
  | none =>
    rw [hIdx] at hres
    exact absurd hres (by simp)
  | some im =>
    obtain ⟨i, m'⟩ := im
    rw [hIdx] at hres
    dsimp only at hres
    cases hGet : (zukunft preise nurNacht now)[i]? with
    | none =>
      rw [hGet] at hres
      exact absurd hres (by simp)
    | some e' =>
      rw [hGet] at hres
      have hem : e' = e ∧ m' = m := by simpa using hres
      obtain ⟨he, hm⟩ := hem
      subst he
      subst hm
      obtain ⟨hlen, hinv⟩ := findeIdx_inv hIdx
      obtain ⟨h1, h2, h3, h4, h5⟩ := hinv
      rw [gueltig, Bool.and_eq_true] at h2
      refine ⟨i, rfl, hGet, ?_, ?_⟩
      · refine startOk_kopf h2.1 ?_
        rw [fenster_kopf hanz]
        exact hGet
      · exact consecutiveOk_paare _ h2.2

/-- Witness for C2 at the demonstration series: the returned window starts
at timestamp 0, strictly inside the 12-hour horizon, with all gaps 15 ≤ 20
minutes. -/
theorem vision_fenster_bedingungen_zeuge :
    ∃ i, findeGuenstigsteStartzeitIdx demoPreise 1 false 12 0 = some (i, m_demo) ∧
      (zukunft demoPreise false 0)[i]? = some ⟨0, 30/1000⟩ ∧
      (⟨0, 30/1000⟩ : Eintrag).timestamp < 0 + 60 * (12 : ℤ) ∧
      (∀ (j : ℕ) (x y : Eintrag),
        (fenster (zukunft demoPreise false 0) (1 * EINTRAEGE_PRO_STUNDE) i)[j]? = some x →
        (fenster (zukunft demoPreise false 0) (1 * EINTRAEGE_PRO_STUNDE) i)[j + 1]? = some y →
        y.timestamp - x.timestamp ≤ 20) :=
  vision_fenster_bedingungen demoPreise 1 12 false 0 (by decide) ⟨0, 30/1000⟩ m_demo
    (by norm_num [findeGuenstigsteStartzeit, findeGuenstigsteStartzeitIdx, demoPreise,
      zukunft, suche, sucheBis, schritt, gueltig, startOk, consecutiveOk, fenster,
      durchschnitt, m_demo, EINTRAEGE_PRO_STUNDE, INTERVALL_MIN, List.range_succ])

/-- Claim C3: whenever fewer future (optionally night-filtered) samples
exist than one window's length, the optimizer returns `None` for both the
start and the average — while the current price may still be non-`None`, as
the two-sample series shows. -/
theorem vision_zu_wenig_daten :
    (∀ (preise : List Eintrag) (stunden maxH : ℕ) (nurNacht : Bool) (now : ℤ),
      (zukunft preise nurNacht now).length < stunden * EINTRAEGE_PRO_STUNDE →
      findeGuenstigsteStartzeit preise stunden nurNacht maxH now = none) ∧
    (findeGuenstigsteStartzeit kurzPreise 1 false 12 0 = none ∧
      findeAktuellenPreis kurzPreise 0 = some (1/100)) := by
  refine ⟨?_, ?_, ?_⟩
  · intro preise stunden maxH nurNacht now h
    simp [findeGuenstigsteStartzeit, findeGuenstigsteStartzeitIdx, h]
  · norm_num [findeGuenstigsteStartzeit, findeGuenstigsteStartzeitIdx, kurzPreise,
      zukunft, EINTRAEGE_PRO_STUNDE, INTERVALL_MIN]
  · have hr : round5 (1/100 : ℚ) = 1/100 := by
      have hcast : ((1/100 : ℚ) * 100000) = ((1000 : ℤ) : ℚ) := by norm_num
      rw [round5, hcast, round_intCast]
      norm_num
    norm_num [findeAktuellenPreis, kurzPreise, INTERVALL_MIN, hr]

/-- Witness for C3: a two-sample series is shorter than a two-hour window,
so the optimizer yields no window. -/
theorem vision_zu_wenig_daten_zeuge :
    findeGuenstigsteStartzeit kurzPreise 2 false 12 0 = none :=
  vision_zu_wenig_daten.1 kurzPreise 2 12 false 0 (by decide)

/-! ## Freshness policy (C4) and power parsing (C7) -/

/-- Claim C4: `shouldFetch`, the negation of `_is_data_fresh`, returns true
iff no prior record exists or the elapsed time is at least the staleness
budget; in particular it is false for every existing record whose elapsed
time is strictly below the budget. -/
theorem should_fetch_genau_bei_veralteten_daten
    (fileExists : Bool) (ageSeconds : ℚ) (budget : ℕ) :
    shouldFetch fileExists ageSeconds budget = true ↔
      (fileExists = false ∨ (budget : ℚ) * 60 ≤ ageSeconds) := by
  cases fileExists <;> simp [shouldFetch, isDataFresh, not_lt]

/-- Claim C7: the rollover correction maps every raw instantaneous-power
value above the threshold to `raw - 2^24`, leaves other positive raw values
unchanged, and in particular corrects `16777200` to `-16`. -/
theorem parse_power_ueberlauf :
    (∀ r : ℤ, 9000000 < r → parsePower (some r) = some (r - 16777216)) ∧
    (∀ r : ℤ, 0 < r → r ≤ 9000000 → parsePower (some r) = some r) ∧
    parsePower (some 16777200) = some (-16) := by
  refine ⟨?_, ?_, ?_⟩
  · intro r hr
    have h0 : r ≠ 0 := by omega
    simp [parsePower, h0, hr]
  · intro r h1 h2
    have h0 : r ≠ 0 := by omega
    have h3 : ¬ (9000000 < r) := by omega
    simp [parsePower, h0, h3]
  · norm_num [parsePower]

/-- Witness for C7: the raw value 10000000 lies above the threshold and is
corrected by `2^24`. -/
theorem parse_power_ueberlauf_zeuge :
    parsePower (some 10000000) = some (10000000 - 16777216) :=
  parse_power_ueberlauf.1 10000000 (by norm_num)

/-! ## Meter update lemmas (C5, C6) -/

/-- The import step leaves the export and power fields untouched. -/
theorem lanSchrittVerbrauch_erhaelt (s : Zaehler × Bool) (v : Option (ℚ × ℤ)) :
    (lanSchrittVerbrauch s v).1.gesamteinspeisung = s.1.gesamteinspeisung ∧
    (lanSchrittVerbrauch s v).1.gesamteinspeisungTs = s.1.gesamteinspeisungTs ∧
    (lanSchrittVerbrauch s v).1.momentanleistung = s.1.momentanleistung ∧
    (lanSchrittVerbrauch s v).1.momentanleistungTs = s.1.momentanleistungTs := by
  rcases v with _ | ⟨v, ts⟩
  · exact ⟨rfl, rfl, rfl, rfl⟩
  · dsimp only [lanSchrittVerbrauch]
    split
    · exact ⟨rfl, rfl, rfl, rfl⟩
    · exact ⟨rfl, rfl, rfl, rfl⟩

/-- The export step leaves the import and power fields untouched. -/
theorem lanSchrittEinspeisung_erhaelt (s : Zaehler × Bool) (v : Option (ℚ × ℤ)) :
    (lanSchrittEinspeisung s v).1.gesamtverbrauch = s.1.gesamtverbrauch ∧
    (lanSchrittEinspeisung s v).1.gesamtverbrauchTs = s.1.gesamtverbrauchTs ∧
    (lanSchrittEinspeisung s v).1.momentanleistung = s.1.momentanleistung ∧
    (lanSchrittEinspeisung s v).1.momentanleistungTs = s.1.momentanleistungTs := by
  rcases v with _ | ⟨v, ts⟩
  · exact ⟨rfl, rfl, rfl, rfl⟩
  · dsimp only [lanSchrittEinspeisung]
    split
    · split
      · exact ⟨rfl, rfl, rfl, rfl⟩
      · exact ⟨rfl, rfl, rfl, rfl⟩
    · exact ⟨rfl, rfl, rfl, rfl⟩

/-- The power step leaves the import and export fields untouched. -/
theorem lanSchrittLeistung_erhaelt (s : Zaehler × Bool) (v : Option (ℚ × ℤ)) :
    (lanSchrittLeistung s v).1.gesamtverbrauch = s.1.gesamtverbrauch ∧
    (lanSchrittLeistung s v).1.gesamtverbrauchTs = s.1.gesamtverbrauchTs ∧
    (lanSchrittLeistung s v).1.gesamteinspeisung = s.1.gesamteinspeisung ∧
    (lanSchrittLeistung s v).1.gesamteinspeisungTs = s.1.gesamteinspeisungTs := by
  rcases v with _ | ⟨v, ts⟩
  · exact ⟨rfl, rfl, rfl, rfl⟩
  · dsimp only [lanSchrittLeistung]
    split
    · exact ⟨rfl, rfl, rfl, rfl⟩
    · exact ⟨rfl, rfl, rfl, rfl⟩

/-- An import reading whose timestamp is not newer than the stored one is a
no-op for the import step. -/
theorem lanSchrittVerbrauch_veraltet (s : Zaehler × Bool) (v : ℚ) {ts o : ℤ}
    (ho : s.1.gesamtverbrauchTs = some o) (hts : ts ≤ o) :
    lanSchrittVerbrauch s (some (v, ts)) = s := by
  have hlt : ¬ (o < ts) := not_lt.mpr hts
  simp [lanSchrittVerbrauch, vergleicheTs, ho, hlt]

/-- An export reading whose timestamp is not newer than the stored one is a
no-op for the export step. -/
theorem lanSchrittEinspeisung_veraltet (s : Zaehler × Bool) (v : ℚ) {ts o : ℤ}
    (ho : s.1.gesamteinspeisungTs = some o) (hts : ts ≤ o) :
    lanSchrittEinspeisung s (some (v, ts)) = s := by
  have hlt : ¬ (o < ts) := not_lt.mpr hts
  simp [lanSchrittEinspeisung, vergleicheTs, ho, hlt]

/-- A power reading whose timestamp is not newer than the stored one is a
no-op for the power step. -/
theorem lanSchrittLeistung_veraltet (s : Zaehler × Bool) (v : ℚ) {ts o : ℤ}
    (ho : s.1.momentanleistungTs = some o) (hts : ts ≤ o) :
    lanSchrittLeistung s (some (v, ts)) = s := by
  have hlt : ¬ (o < ts) := not_lt.mpr hts
  simp [lanSchrittLeistung, vergleicheTs, ho, hlt]

/-- An incoming export value of exactly zero against a stored positive
export is discarded by the zero-regression guard, whatever its timestamp. -/
theorem lanSchrittEinspeisung_null_blockiert (s : Zaehler × Bool) {x : ℚ} (ts : ℤ)
    (hx : s.1.gesamteinspeisung = some x) (hpos : 0 < x) :
    lanSchrittEinspeisung s (some (0, ts)) = s := by
  have hb : blockNullEinspeisung s.1.gesamteinspeisung 0 = true := by
    rw [hx]
    simp [blockNullEinspeisung, ne_of_gt hpos, hpos]
  dsimp only [lanSchrittEinspeisung]
  split <;> simp [hb]

/-- If the export step is a no-op on every state agreeing with `entry` on
the export fields, the whole LAN update preserves the export fields. -/
theorem lanRunUpdate_einspeisung_fix
    (entry : Zaehler) (verbrauch einspeisung leistung : Option (ℚ × ℤ))
    (hfix : ∀ s : Zaehler × Bool, s.1.gesamteinspeisung = entry.gesamteinspeisung →
      s.1.gesamteinspeisungTs = entry.gesamteinspeisungTs →
      lanSchrittEinspeisung s einspeisung = s) :
    (lanRunUpdate entry verbrauch einspeisung leistung).gesamteinspeisung =
      entry.gesamteinspeisung ∧
    (lanRunUpdate entry verbrauch einspeisung leistung).gesamteinspeisungTs =
      entry.gesamteinspeisungTs := by
  unfold lanRunUpdate
  obtain ⟨hv1, hv2, _, _⟩ := lanSchrittVerbrauch_erhaelt (entry, false) verbrauch
  rw [hfix (lanSchrittVerbrauch (entry, false) verbrauch) hv1 hv2]
  obtain ⟨_, _, hl3, hl4⟩ :=
    lanSchrittLeistung_erhaelt (lanSchrittVerbrauch (entry, false) verbrauch) leistung
  dsimp only
  split
  · exact ⟨hl3.trans hv1, hl4.trans hv2⟩
  · exact ⟨rfl, rfl⟩

/-- Claim C5: a stored positive cumulative export is never regressed to an
incoming zero export, whatever the incoming timestamps — the LAN fetcher
discards a parsed zero (raw zero parses to `None` and is skipped; a literal
zero is blocked by the guard), and the cloud fetcher never writes the export
field at all. -/
theorem meter_export_null_verworfen
    (entry : Zaehler) (x : ℚ) (verbrauch leistung : Option (ℚ × ℤ)) (ts : ℤ)
    (hx : entry.gesamteinspeisung = some x) (hpos : 0 < x) :
    ((lanRunUpdate entry verbrauch (some (0, ts)) leistung).gesamteinspeisung = some x ∧
      (lanRunUpdate entry verbrauch (some (0, ts)) leistung).gesamteinspeisungTs =
        entry.gesamteinspeisungTs) ∧
    parseKwh (some 0) = none ∧
    (∀ (e2 : Zaehler) (v2 l2 : Option (ℚ × ℤ)),
      (lanRunUpdate e2 v2 none l2).gesamteinspeisung = e2.gesamteinspeisung ∧
      (lanRunUpdate e2 v2 none l2).gesamteinspeisungTs = e2.gesamteinspeisungTs) ∧
    (∀ (e3 : Zaehler) (v3 l3 : ℚ) (t3 : ℤ),
      (webRunUpdate e3 v3 l3 t3).gesamteinspeisung = e3.gesamteinspeisung ∧
      (webRunUpdate e3 v3 l3 t3).gesamteinspeisungTs = e3.gesamteinspeisungTs) := by
  refine ⟨?_, by simp [parseKwh], ?_, ?_⟩
  · have h := lanRunUpdate_einspeisung_fix entry verbrauch (some (0, ts)) leistung
      (fun s h1 h2 => lanSchrittEinspeisung_null_blockiert s ts (h1.trans hx) hpos)
    exact ⟨h.1.trans hx, h.2⟩
  · intro e2 v2 l2
    exact lanRunUpdate_einspeisung_fix e2 v2 none l2 (fun s _ _ => rfl)
  · intro e3 v3 l3 t3
    unfold webRunUpdate
    have h1 : (webSchrittVerbrauch (e3, false) v3 t3).1.gesamteinspeisung =
        e3.gesamteinspeisung ∧
        (webSchrittVerbrauch (e3, false) v3 t3).1.gesamteinspeisungTs =
        e3.gesamteinspeisungTs := by
      unfold webSchrittVerbrauch
      split
      · exact ⟨rfl, rfl⟩
      · exact ⟨rfl, rfl⟩
    have h2 : (webSchrittLeistung (webSchrittVerbrauch (e3, false) v3 t3) l3 t3).1.gesamteinspeisung =
        (webSchrittVerbrauch (e3, false) v3 t3).1.gesamteinspeisung ∧
        (webSchrittLeistung (webSchrittVerbrauch (e3, false) v3 t3) l3 t3).1.gesamteinspeisungTs =
        (webSchrittVerbrauch (e3, false) v3 t3).1.gesamteinspeisungTs := by
      unfold webSchrittLeistung
      split
      · exact ⟨rfl, rfl⟩
      · exact ⟨rfl, rfl⟩
    dsimp only
    split
    · exact ⟨h2.1.trans h1.1, h2.2.trans h1.2⟩
    · exact ⟨rfl, rfl⟩

/-- Witness for C5: a record holding export 3 kWh is unchanged by an
incoming zero-export reading with a strictly newer timestamp. -/
theorem meter_export_null_verworfen_zeuge :
    (lanRunUpdate { gesamteinspeisung := some 3, gesamteinspeisungTs := some 10 }
        none (some (0, 99)) none).gesamteinspeisung = some 3 ∧
    (lanRunUpdate { gesamteinspeisung := some 3, gesamteinspeisungTs := some 10 }
        none (some (0, 99)) none).gesamteinspeisungTs = some 10 := by
  have h := meter_export_null_verworfen
    { gesamteinspeisung := some 3, gesamteinspeisungTs := some 10 }
    3 none none 99 rfl (by norm_num)
  exact h.1

/-- If the import step is a no-op, the whole LAN update preserves the two
fields of the import reading. -/
theorem lanRunUpdate_verbrauch_fix
    (entry : Zaehler) (verbrauch einspeisung leistung : Option (ℚ × ℤ))
    (hfix : lanSchrittVerbrauch (entry, false) verbrauch = (entry, false)) :
    (lanRunUpdate entry verbrauch einspeisung leistung).gesamtverbrauch =
      entry.gesamtverbrauch ∧
    (lanRunUpdate entry verbrauch einspeisung leistung).gesamtverbrauchTs =
      entry.gesamtverbrauchTs := by
  unfold lanRunUpdate
  rw [hfix]
  obtain ⟨he1, he2, _, _⟩ := lanSchrittEinspeisung_erhaelt (entry, false) einspeisung
  obtain ⟨hl1, hl2, _, _⟩ :=
    lanSchrittLeistung_erhaelt (lanSchrittEinspeisung (entry, false) einspeisung) leistung
  dsimp only
  split
  · exact ⟨hl1.trans he1, hl2.trans he2⟩
  · exact ⟨rfl, rfl⟩

/-- If the power step is a no-op on every state agreeing with `entry` on the
stored power timestamp, the whole LAN update preserves the power fields. -/
theorem lanRunUpdate_leistung_fix
    (entry : Zaehler) (verbrauch einspeisung leistung : Option (ℚ × ℤ))
    (hfix : ∀ s : Zaehler × Bool, s.1.momentanleistungTs = entry.momentanleistungTs →
      lanSchrittLeistung s leistung = s) :
    (lanRunUpdate entry verbrauch einspeisung leistung).momentanleistung =
      entry.momentanleistung ∧
    (lanRunUpdate entry verbrauch einspeisung leistung).momentanleistungTs =
      entry.momentanleistungTs := by
  unfold lanRunUpdate
  obtain ⟨_, _, hv3, hv4⟩ := lanSchrittVerbrauch_erhaelt (entry, false) verbrauch
  obtain ⟨_, _, he3, he4⟩ :=
    lanSchrittEinspeisung_erhaelt (lanSchrittVerbrauch (entry, false) verbrauch) einspeisung
  rw [hfix _ (he4.trans hv4)]
  dsimp only
  split
  · exact ⟨he3.trans hv3, he4.trans hv4⟩
  · exact ⟨rfl, rfl⟩

/-- The web import step leaves the power fields untouched. -/
theorem webSchrittVerbrauch_erhaelt (s : Zaehler × Bool) (v : ℚ) (ts : ℤ) :
    (webSchrittVerbrauch s v ts).1.momentanleistung = s.1.momentanleistung ∧
    (webSchrittVerbrauch s v ts).1.momentanleistungTs = s.1.momentanleistungTs := by
  unfold webSchrittVerbrauch
  split
  · exact ⟨rfl, rfl⟩
  · exact ⟨rfl, rfl⟩

/-- The web power step leaves the import fields untouched. -/
theorem webSchrittLeistung_erhaelt (s : Zaehler × Bool) (v : ℚ) (ts : ℤ) :
    (webSchrittLeistung s v ts).1.gesamtverbrauch = s.1.gesamtverbrauch ∧
    (webSchrittLeistung s v ts).1.gesamtverbrauchTs = s.1.gesamtverbrauchTs := by
  unfold webSchrittLeistung
  split
  · exact ⟨rfl, rfl⟩
  · exact ⟨rfl, rfl⟩

/-- A web reading whose timestamp is not newer than the stored import
timestamp leaves the import step a no-op. -/
theorem webSchrittVerbrauch_veraltet (s : Zaehler × Bool) (v : ℚ) {ts o : ℤ}
    (ho : s.1.gesamtverbrauchTs = some o) (hts : ts ≤ o) :
    webSchrittVerbrauch s v ts = s := by
  have hlt : ¬ (o < ts) := not_lt.mpr hts
  simp [webSchrittVerbrauch, vergleicheTs, ho, hlt]

/-- A web reading whose timestamp is not newer than the stored power
timestamp leaves the power step a no-op. -/
theorem webSchrittLeistung_veraltet (s : Zaehler × Bool) (v : ℚ) {ts o : ℤ}
    (ho : s.1.momentanleistungTs = some o) (hts : ts ≤ o) :
    webSchrittLeistung s v ts = s := by
  have hlt : ¬ (o < ts) := not_lt.mpr hts
  simp [webSchrittLeistung, vergleicheTs, ho, hlt]

/-- Example meter record used to demonstrate a partial update. -/
def beispielZaehler : Zaehler :=
  { gesamtverbrauch := some 1, gesamtverbrauchTs := some 50,
    momentanleistung := some 2, momentanleistungTs := some 50, source := "LAN" }

/-- Claim C6: for every existing meter record, each field is overwritten
only when the incoming per-field timestamp is strictly newer than the
stored one — an equal or older incoming timestamp keeps the stored value,
for all three LAN fields and both cloud fields — and the fields update
independently, as the final conjunct's partial update (newer import, older
power) demonstrates. -/
theorem meter_feld_nur_bei_neuerem_timestamp :
    (∀ (entry : Zaehler) (o : ℤ) (v : ℚ) (ts : ℤ) (ein l : Option (ℚ × ℤ)),
      entry.gesamtverbrauchTs = some o → ts ≤ o →
      (lanRunUpdate entry (some (v, ts)) ein l).gesamtverbrauch = entry.gesamtverbrauch ∧
      (lanRunUpdate entry (some (v, ts)) ein l).gesamtverbrauchTs = entry.gesamtverbrauchTs) ∧
    (∀ (entry : Zaehler) (o : ℤ) (v : ℚ) (ts : ℤ) (vb l : Option (ℚ × ℤ)),
      entry.gesamteinspeisungTs = some o → ts ≤ o →
      (lanRunUpdate entry vb (some (v, ts)) l).gesamteinspeisung = entry.gesamteinspeisung ∧
      (lanRunUpdate entry vb (some (v, ts)) l).gesamteinspeisungTs = entry.gesamteinspeisungTs) ∧
    (∀ (entry : Zaehler) (o : ℤ) (v : ℚ) (ts : ℤ) (vb ein : Option (ℚ × ℤ)),
      entry.momentanleistungTs = some o → ts ≤ o →
      (lanRunUpdate entry vb ein (some (v, ts))).momentanleistung = entry.momentanleistung ∧
      (lanRunUpdate entry vb ein (some (v, ts))).momentanleistungTs = entry.momentanleistungTs) ∧
    (∀ (entry : Zaehler) (o : ℤ) (v l : ℚ) (ts : ℤ),
      entry.gesamtverbrauchTs = some o → ts ≤ o →
      (webRunUpdate entry v l ts).gesamtverbrauch = entry.gesamtverbrauch ∧
      (webRunUpdate entry v l ts).gesamtverbrauchTs = entry.gesamtverbrauchTs) ∧
    (∀ (entry : Zaehler) (o : ℤ) (v l : ℚ) (ts : ℤ),
      entry.momentanleistungTs = some o → ts ≤ o →
      (webRunUpdate entry v l ts).momentanleistung = entry.momentanleistung ∧
      (webRunUpdate entry v l ts).momentanleistungTs = entry.momentanleistungTs) ∧
    ((lanRunUpdate beispielZaehler (some (5, 100)) none (some (7, 10))).gesamtverbrauch =
        some 5 ∧
      (lanRunUpdate beispielZaehler (some (5, 100)) none (some (7, 10))).gesamtverbrauchTs =
        some 100 ∧
      (lanRunUpdate beispielZaehler (some (5, 100)) none (some (7, 10))).momentanleistung =
        some 2 ∧
      (lanRunUpdate beispielZaehler (some (5, 100)) none (some (7, 10))).momentanleistungTs =
        some 50) := by
  refine ⟨?_, ?_, ?_, ?_, ?_, ?_⟩
  · intro entry o v ts ein l ho hts
    exact lanRunUpdate_verbrauch_fix entry (some (v, ts)) ein l
      (lanSchrittVerbrauch_veraltet (entry, false) v ho hts)
  · intro entry o v ts vb l ho hts
    exact lanRunUpdate_einspeisung_fix entry vb (some (v, ts)) l
      (fun s h1 h2 => lanSchrittEinspeisung_veraltet s v (h2.trans ho) hts)
  · intro entry o v ts vb ein ho hts
    exact lanRunUpdate_leistung_fix entry vb ein (some (v, ts))
      (fun s h => lanSchrittLeistung_veraltet s v (h.trans ho) hts)
  · intro entry o v l ts ho hts
    unfold webRunUpdate
    rw [webSchrittVerbrauch_veraltet (entry, false) v ho hts]
    obtain ⟨hl1, hl2⟩ := webSchrittLeistung_erhaelt (entry, false) l ts
    dsimp only
    split
    · exact ⟨hl1, hl2⟩
    · exact ⟨rfl, rfl⟩
  · intro entry o v l ts ho hts
    unfold webRunUpdate
    obtain ⟨hv1, hv2⟩ := webSchrittVerbrauch_erhaelt (entry, false) v ts
    rw [webSchrittLeistung_veraltet (webSchrittVerbrauch (entry, false) v ts) l
      (hv2.trans ho) hts]
    dsimp only
    split
    · exact ⟨hv1, hv2⟩
    · exact ⟨rfl, rfl⟩
  · norm_num [lanRunUpdate, lanSchrittVerbrauch, lanSchrittEinspeisung,
      lanSchrittLeistung, vergleicheTs, beispielZaehler]

/-- Witness for C6: an incoming import reading with timestamp equal to the
stored one leaves the stored import value and timestamp unchanged. -/
theorem meter_feld_nur_bei_neuerem_timestamp_zeuge :
    (lanRunUpdate beispielZaehler (some (9, 50)) none none).gesamtverbrauch = some 1 ∧
    (lanRunUpdate beispielZaehler (some (9, 50)) none none).gesamtverbrauchTs = some 50 := by
  have h := meter_feld_nur_bei_neuerem_timestamp.1 beispielZaehler 50 9 50 none none
    rfl (le_refl 50)
  exact ⟨h.1, h.2⟩

/-! ## Scheduler vision tick (C8), configuration clamping (C9), zero-average
discard (C10) -/

/-- Claim C8 (divergence evidence): with the optimizer feature enabled and
the gross-price file present, the vision tick executes even in a state
where the vision result record is fresh by `_is_data_fresh` with the
4-minute `FRESHNESS_VISION` budget (age 0 seconds) — `_task_vision`
consults no freshness check at all, so the tick does not no-op as the
claim requires. -/
theorem vision_tick_ignoriert_frische :
    taskVisionRuns true true = true ∧ isDataFresh true 0 FRESHNESS_VISION = true := by
  constructor
  · rfl
  · norm_num [isDataFresh, FRESHNESS_VISION]

/-- Counterexample to C9 as stated: writing window length 5 over the stored
configuration (window 2, horizon 3) clamps only against the data
availability (48 h), leaving the stored pair (5, 3) with 3 < 5 + 1. -/
theorem stunden_block_schreiben_verletzt_invariante :
    (setStundenBlock { stundenBlock := some 2, vorausschauStunden := some 3 } 48 5).stundenBlock =
      some 5 ∧
    (setStundenBlock { stundenBlock := some 2, vorausschauStunden := some 3 } 48 5).vorausschauStunden =
      some 3 ∧
    ¬ ((5 : ℤ) + 1 ≤ 3) := by
  refine ⟨?_, rfl, by norm_num⟩
  norm_num [setStundenBlock]

/-- Claim C9 (amended): a write of the horizon clamps the written value to
at least the effective window length plus one, and the effective (getter
level) configuration always satisfies horizon ≥ window length + 1; a write
of the window length alone does not restore the stored invariant. -/
theorem vorausschau_schreiben_klemmt :
    (∀ (env : AccountEnv) (maxDaten v s : ℤ),
      (setVorausschauStunden env maxDaten v).vorausschauStunden = some s →
      getStundenBlock (setVorausschauStunden env maxDaten v) maxDaten + 1 ≤ s) ∧
    (∀ (env : AccountEnv) (maxDaten : ℤ),
      getStundenBlock env maxDaten + 1 ≤ getVorausschauStunden env maxDaten) := by
  constructor
  · intro env maxDaten v s hs
    have hgleich : getStundenBlock (setVorausschauStunden env maxDaten v) maxDaten =
        getStundenBlock env maxDaten := rfl
    have hval : max (getStundenBlock env maxDaten + 1) (min maxDaten v) = s := by
      simpa [setVorausschauStunden] using hs
    rw [hgleich, ← hval]
    exact le_max_left _ _
  · intro env maxDaten
    unfold getVorausschauStunden
    exact le_max_left _ _

/-- Witness for the amended C9: writing horizon 10 over (window 2,
horizon 3) with 48 hours of data stores 10 ≥ 2 + 1. -/
theorem vorausschau_schreiben_klemmt_zeuge :
    getStundenBlock (setVorausschauStunden
      { stundenBlock := some 2, vorausschauStunden := some 3 } 48 10) 48 + 1 ≤ 10 :=
  vorausschau_schreiben_klemmt.1
    { stundenBlock := some 2, vorausschauStunden := some 3 } 48 10 10
    (by norm_num [setVorausschauStunden, getStundenBlock])

/-- Claim C10: whenever the optimizer finds a cheapest window whose mean
price is exactly zero, the stored result record has a non-null start time
but a null window average — the zero average is discarded by the truthiness
check in `run` — so a null average does not imply that no window was found. -/
theorem null_durchschnitt_verworfen
    (preise : List Eintrag) (stunden maxH : ℕ) (nurNacht : Bool) (now : ℤ) (e : Eintrag)
    (h : findeGuenstigsteStartzeit preise stunden nurNacht maxH now = some (e, 0)) :
    visionErgebnis (findeGuenstigsteStartzeit preise stunden nurNacht maxH now) =
      (some e.timestamp, none) := by
  rw [h]
  simp [visionErgebnis]

/-- Witness for C10: on the all-zero price series the optimizer finds the
window starting at timestamp 0 with average 0, and the stored record keeps
the start but drops the average. -/
theorem null_durchschnitt_verworfen_zeuge :
    findeGuenstigsteStartzeit nullPreise 1 false 12 0 = some (⟨0, 0⟩, 0) ∧
    visionErgebnis (findeGuenstigsteStartzeit nullPreise 1 false 12 0) = (some 0, none) := by
  have heval : findeGuenstigsteStartzeit nullPreise 1 false 12 0 = some (⟨0, 0⟩, 0) := by
    norm_num [findeGuenstigsteStartzeit, findeGuenstigsteStartzeitIdx, nullPreise, zukunft,
      suche, sucheBis, schritt, gueltig, startOk, consecutiveOk, fenster, durchschnitt,
      EINTRAEGE_PRO_STUNDE, INTERVALL_MIN, List.range_succ]
  exact ⟨heval, null_durchschnitt_verworfen nullPreise 1 12 false 0 ⟨0, 0⟩ heval⟩

end IonaHa
